import Mathlib

/-!
# Verification of the JA1 OBD-II telemetry logger

A shallow embedding of the value-caching, logging and control logic of the
repository's Python variants:

* `loger1.py`   — console poller with last-known-good caching (raw magnitudes);
* `finalboss.py`/`complete.py` — CustomTkinter dashboards (`int()` magnitudes);
* `lastone.py`  — dashboard with a shared-state polling thread and CSV buffer;
* `loger3.py`   — Flask backend with a logger thread and CSV buffer;
* `loger2-Ari.py` — Flask backend with an in-memory `logged_data` list.

Query responses are modelled as `Option ℚ` per parameter: `none` stands for a
null/absent response (`is_null()` true, or no response object at all), `some q`
for a valid reading whose Pint magnitude is `q`.  Timestamps, GUI widgets and
the wire protocol are outside the model.
-/

set_option autoImplicit false

namespace JA1

/-- Python `int()` applied to a rational magnitude: truncation toward zero. -/
def pyInt (q : ℚ) : ℤ := q.num.tdiv q.den

/-- The four query responses of one tick: RPM, speed, coolant and oil
temperature, each `none` when the response is null/absent. -/
structure TickResp where
  rpm : Option ℚ
  speed : Option ℚ
  cool : Option ℚ
  oil : Option ℚ
deriving DecidableEq, Repr

/-- A tick whose four responses are all absent. -/
def TickResp.allAbsent : TickResp := ⟨none, none, none, none⟩

/-- Last-known-good values kept by `loger1.py` (lines 20–23) and, with the
same update logic, by `loger3.py`'s `state["last_values"]`: raw rational
magnitudes, with `none` as the distinguished `"N/A"` marker for oil. -/
structure L1Vals where
  rpm : ℚ
  speed : ℚ
  cool : ℚ
  oil : Option ℚ
deriving DecidableEq, Repr

/-- Initial cache of `loger1.py` lines 20–23: zeros and `"N/A"` for oil. -/
def L1Vals.init : L1Vals := { rpm := 0, speed := 0, cool := 0, oil := none }

/-- One tick of `loger1.py`'s main-loop filtering (lines 31–42): each field is
overwritten by a valid (non-null) response and left unchanged by an absent
one.  The same per-field logic appears in `loger3.py` lines 112–139. -/
def l1Update (v : L1Vals) (r : TickResp) : L1Vals :=
  { rpm := match r.rpm with | some x => x | none => v.rpm
    speed := match r.speed with | some x => x | none => v.speed
    cool := match r.cool with | some x => x | none => v.cool
    oil := match r.oil with | some x => some x | none => v.oil }

/-- Cache after a whole run of ticks of `loger1.py`'s main loop. -/
def l1Run (v : L1Vals) (rs : List TickResp) : L1Vals := rs.foldl l1Update v

/-- The cached values observed after each tick of `loger1.py`'s main loop
(the tuple printed at line 44). -/
def l1Trace (v : L1Vals) : List TickResp → List L1Vals
  | [] => []
  | r :: rest =>
    let v1 := l1Update v r
    v1 :: l1Trace v1 rest

/-- Last-known-good values kept by `finalboss.py` (lines 32–35), by
`complete.py`'s per-tick row values and by `lastone.py`'s
`state["last_values"]`: `int()`-converted magnitudes, `none` as `"N/A"`. -/
structure FBVals where
  rpm : ℤ
  speed : ℤ
  cool : ℤ
  oil : Option ℤ
deriving DecidableEq, Repr

/-- Initial cache of `finalboss.py` lines 32–35 (and `lastone.py` lines 32–37). -/
def FBVals.init : FBVals := { rpm := 0, speed := 0, cool := 0, oil := none }

/-- One tick of `finalboss.py`'s filtering logic (lines 170–180), identical to
`lastone.py` lines 106–113: a valid response overwrites the field with the
`int()`-truncated magnitude, an absent one leaves it unchanged. -/
def fbUpdate (v : FBVals) (r : TickResp) : FBVals :=
  { rpm := match r.rpm with | some x => pyInt x | none => v.rpm
    speed := match r.speed with | some x => pyInt x | none => v.speed
    cool := match r.cool with | some x => pyInt x | none => v.cool
    oil := match r.oil with | some x => some (pyInt x) | none => v.oil }

/-- Cache after a whole run of ticks of `finalboss.py`'s `logging_loop`. -/
def fbRun (v : FBVals) (rs : List TickResp) : FBVals := rs.foldl fbUpdate v

/-- The cached values observed after each tick of `finalboss.py`'s
`logging_loop` (the tuple written to CSV and to the gauges). -/
def fbTrace (v : FBVals) : List TickResp → List FBVals
  | [] => []
  | r :: rest =>
    let v1 := fbUpdate v r
    v1 :: fbTrace v1 rest

/-- Pointwise `int()` truncation, relating `loger1.py`'s raw cache to
`finalboss.py`'s truncated cache. -/
def truncVals (v : L1Vals) : FBVals :=
  { rpm := pyInt v.rpm, speed := pyInt v.speed, cool := pyInt v.cool
    oil := v.oil.map pyInt }

/-- A sequence of ticks in which only the RPM parameter ever responds. -/
def rpmTicks (rs : List (Option ℚ)) : List TickResp :=
  rs.map fun r => { rpm := r, speed := none, cool := none, oil := none }

/-! ## `complete.py` — dashboard control surface -/

/-- The engine-visible control state of `complete.py`'s `CarDashboard`:
`connected` models `self.connection is not None and self.connection.is_connected()`,
`running` the worker-loop flag, `csvOpen` whether `self.csv_file` is a live
file object, and `sinkCloses` counts calls of `self.csv_file.close()`. -/
structure CDState where
  connected : Bool
  running : Bool
  csvOpen : Bool
  sinkCloses : ℕ
deriving DecidableEq, Repr

/-- `complete.py` `start_logging` (lines 111–128).  When the connection is
absent or dead the method plainly `return`s: no CSV file is opened, `running`
stays as it was, and no error value of any kind is produced — the result
component is `none` on every path (the Python method returns `None`). -/
def cdStartLogging (s : CDState) : CDState × Option String :=
  if s.connected then
    ({ s with running := true, csvOpen := true }, none)
  else
    (s, none)

/-- `complete.py` `stop_logging` (lines 130–138): clear `running`, and close
the CSV file only when one is open (`if self.csv_file:`), then null it out. -/
def cdStopLogging (s : CDState) : CDState :=
  { s with running := false
           csvOpen := false
           sinkCloses := s.sinkCloses + (if s.csvOpen then 1 else 0) }

/-- `complete.py` `close_app` (lines 140–142): `stop_logging` followed by the
window `destroy()`; its engine-visible state change is exactly `stop_logging`. -/
def cdCloseApp (s : CDState) : CDState := cdStopLogging s

/-! ## `loger3.py` — Flask backend -/

/-- Result of a `loger3.py` / `loger2-Ari.py` API command: HTTP 200 or an
error payload with its message. -/
inductive ApiResult where
  | ok : ApiResult
  | err : String → ApiResult
deriving DecidableEq, Repr

/-- The locked global `state` dict of `loger3.py` (lines 24–38), restricted to
the fields the claims are about.  `csv_path` is the current CSV destination,
identified by an abstract file id (`none` before any session). -/
structure L3State where
  connected : Bool
  is_logging : Bool
  total_records : ℕ
  vals : L1Vals
  csv_path : Option ℕ
deriving DecidableEq, Repr

/-- `loger3.py` `api_start_logging` (lines 215–235); `fname` models the fresh
CSV file created by `new_csv_file()`.  Note: connectivity is not consulted —
the only guard is `state["is_logging"]`. -/
def l3StartLogging (s : L3State) (fname : ℕ) : L3State × ApiResult :=
  if s.is_logging then
    (s, .err "Already logging")
  else
    ({ s with csv_path := some fname, total_records := 0, is_logging := true }, .ok)

/-- `loger3.py` `api_stop_logging` (lines 237–255): rejected with HTTP 400
when no session is active, otherwise clears `is_logging` and joins the logger
thread (which performs the final flush, modelled in `l3FinalFlush`). -/
def l3StopLogging (s : L3State) : L3State × ApiResult :=
  if s.is_logging then
    ({ s with is_logging := false }, .ok)
  else
    (s, .err "Not currently logging")

/-- The logger thread's local CSV buffer: `buffer_rows` and
`rows_since_flush` of `loger3.py` lines 76–77 / `lastone.py` lines 71–72. -/
structure Buf (α : Type) where
  buffer : List α
  rows_since_flush : ℕ
deriving DecidableEq, Repr

/-- The empty buffer the logger thread starts with. -/
def Buf.empty {α : Type} : Buf α := ⟨[], 0⟩

/-- Output of one iteration of `loger3.py`'s `logger_thread`. -/
structure L3TickOut where
  state : L3State
  buf : Buf L1Vals
  sink : List L1Vals
  attemptedReconnect : Bool
deriving DecidableEq, Repr

/-- One iteration of `loger3.py`'s `logger_thread` while the stop event is
unset (lines 85–176).

* `reconnectOk` — outcome of `init_obd()` when the liveness check at line 88
  triggers a reconnect attempt;
* `inp = some r` — the four queries (lines 101–104) complete with responses
  `r`; `inp = none` — an exception (CommunicationError) occurs mid-query, so
  the remaining queries are aborted and the handler at lines 105–109 leaves
  all four responses `None`;
* `liveAfter` — `obd_conn.is_connected()` as re-read at line 143, which
  overwrites the `False` written by the exception handler.

The CSV row is appended and `total_records` incremented unconditionally
(lines 146–159), also on an exception tick; the count-triggered flush
(lines 162–170) empties the buffer into the sink only when a `csv_path`
exists (otherwise `open(None)` raises and the buffer is retained). -/
def l3Tick (threshold : ℕ) (s : L3State) (b : Buf L1Vals) (sink : List L1Vals)
    (reconnectOk : Bool) (inp : Option TickResp) (liveAfter : Bool) : L3TickOut :=
  let attempted := !s.connected
  let conn1 := if s.connected then true else reconnectOk
  let resps : TickResp :=
    if conn1 then
      match inp with
      | some r => r
      | none => TickResp.allAbsent
    else TickResp.allAbsent
  let vals2 := l1Update s.vals resps
  let s1 := { s with vals := vals2, connected := liveAfter
                     total_records := s.total_records + 1 }
  let b1 : Buf L1Vals := ⟨b.buffer ++ [vals2], b.rows_since_flush + 1⟩
  if threshold ≤ b1.rows_since_flush then
    match s.csv_path with
    | some _ => ⟨s1, Buf.empty, sink ++ b1.buffer, attempted⟩
    | none => ⟨s1, b1, sink, attempted⟩
  else ⟨s1, b1, sink, attempted⟩

/-- The final flush of `loger3.py`'s `logger_thread` after the stop event
(lines 179–185): a non-empty buffer is appended to the sink when a `csv_path`
exists; the thread then exits without clearing its locals. -/
def l3FinalFlush (s : L3State) (b : Buf L1Vals) (sink : List L1Vals) : List L1Vals :=
  match s.csv_path, b.buffer with
  | some _, _ :: _ => sink ++ b.buffer
  | _, _ => sink

/-- Iterate `l3Tick` over a list of per-tick inputs with the transport staying
live (`reconnectOk = liveAfter = true`), without the final flush. -/
def l3Ticks (threshold : ℕ) : L3State → Buf L1Vals → List L1Vals →
    List (Option TickResp) → L3State × Buf L1Vals × List L1Vals
  | s, b, sink, [] => (s, b, sink)
  | s, b, sink, inp :: rest =>
    let o := l3Tick threshold s b sink true inp true
    l3Ticks threshold o.state o.buf o.sink rest

/-- A whole logger-thread run of `loger3.py`: the ticks until the stop event,
then the final flush; yields the sink contents. -/
def l3LoggerRun (threshold : ℕ) (s : L3State) (b : Buf L1Vals) (sink : List L1Vals)
    (inps : List (Option TickResp)) : List L1Vals :=
  let o := l3Ticks threshold s b sink inps
  l3FinalFlush o.1 o.2.1 o.2.2

/-! ## `lastone.py` — shared-state polling thread -/

/-- The locked global `STATE` dict of `lastone.py` (lines 26–39), restricted
to the fields the claims are about. -/
structure LOState where
  connected : Bool
  is_logging : Bool
  total_records : ℕ
  vals : FBVals
  csv_path : Option ℕ
deriving DecidableEq, Repr

/-- Output of one iteration of `lastone.py`'s `data_polling_thread`. -/
structure LOTickOut where
  state : LOState
  buf : Buf FBVals
  sink : List FBVals
  attemptedReconnect : Bool
deriving DecidableEq, Repr

/-- One iteration of `lastone.py`'s `data_polling_thread` (lines 80–158).

* `reconnectOk` — outcome of `init_obd()` when line 91 finds the connection
  down and attempts a reconnect;
* `inp = some r` — the four queries (lines 99–102) complete with responses
  `r`, after which the last-good update runs (lines 106–113, with `int()`
  conversion) and line 117 re-reads liveness as `liveAfter`;
* `inp = none` — a CommunicationError mid-query: the exception aborts the
  remaining queries, discards the partially collected responses (the whole
  `try` body from line 106 on is skipped) and the handler at lines 121–124
  sets `connected` to `False`, leaving `last_values` unchanged.

A CSV row is appended and `total_records` incremented only when
`is_logging and STATE["connected"]` holds (line 127) — `is_logging` as read
at the top of the loop, `connected` freshly written; the count-triggered
flush (lines 142–149) requires a `csv_path`.  The final-flush block at
lines 161–167 is dead code: it sits after `while True` with no `break`. -/
def loTick (threshold : ℕ) (s : LOState) (b : Buf FBVals) (sink : List FBVals)
    (reconnectOk : Bool) (inp : Option TickResp) (liveAfter : Bool) : LOTickOut :=
  let attempted := !s.connected
  let conn1 := if s.connected then true else reconnectOk
  let step2 : FBVals × Bool :=
    if conn1 then
      match inp with
      | some r => (fbUpdate s.vals r, liveAfter)
      | none => (s.vals, false)
    else (s.vals, false)
  let vals2 := step2.1
  let conn2 := step2.2
  if s.is_logging && conn2 then
    let s1 := { s with connected := conn2, vals := vals2
                       total_records := s.total_records + 1 }
    let b1 : Buf FBVals := ⟨b.buffer ++ [vals2], b.rows_since_flush + 1⟩
    if threshold ≤ b1.rows_since_flush then
      match s.csv_path with
      | some _ => ⟨s1, Buf.empty, sink ++ b1.buffer, attempted⟩
      | none => ⟨s1, b1, sink, attempted⟩
    else ⟨s1, b1, sink, attempted⟩
  else
    ⟨{ s with connected := conn2, vals := vals2 }, b, sink, attempted⟩

/-- Iterate `loTick` with the transport staying live.  There is no final
flush: `lastone.py`'s flush-on-exit block is unreachable. -/
def loTicks (threshold : ℕ) : LOState → Buf FBVals → List FBVals →
    List (Option TickResp) → LOState × Buf FBVals × List FBVals
  | s, b, sink, [] => (s, b, sink)
  | s, b, sink, inp :: rest =>
    let o := loTick threshold s b sink true inp true
    loTicks threshold o.state o.buf o.sink rest

/-- `lastone.py` `stop_logging` (lines 318–324): clears `is_logging` only;
the polling thread keeps running and no flush is triggered. -/
def loStopLogging (s : LOState) : LOState := { s with is_logging := false }

/-! ## `loger2-Ari.py` — in-memory logging backend -/

/-- The global state of `loger2-Ari.py`: connection flag, logging flag,
session start time (an abstract id), the in-memory `logged_data` list and the
current `obd_data` snapshot values. -/
structure L2State where
  connected : Bool
  is_logging : Bool
  log_start_time : Option ℕ
  logged_data : List FBVals
  vals : FBVals
deriving DecidableEq, Repr

/-- `loger2-Ari.py` `start_logging` (lines 201–211): rejected with HTTP 400
when not connected; otherwise sets `is_logging` and `log_start_time` only. -/
def l2StartLogging (s : L2State) (t : ℕ) : L2State × ApiResult :=
  if s.connected then
    ({ s with is_logging := true, log_start_time := some t }, .ok)
  else
    (s, .err "OBD not connected")

/-- `loger2-Ari.py` `stop_logging` (lines 213–219): clears `is_logging` and
reports `len(logged_data)`. -/
def l2StopLogging (s : L2State) : L2State × ℕ :=
  ({ s with is_logging := false }, s.logged_data.length)

/-- `loger2-Ari.py` `clear_data` (lines 221–228): empties `logged_data` and
resets `log_start_time`. -/
def l2ClearData (s : L2State) : L2State :=
  { s with logged_data := [], log_start_time := none }

/-- `loger2-Ari.py` `log_data_point` (lines 172–183): the poller appends the
current snapshot to `logged_data`. -/
def l2LogDataPoint (s : L2State) : L2State :=
  { s with logged_data := s.logged_data ++ [s.vals] }

/-- `loger2-Ari.py` `download_csv` (lines 230–263): one CSV data row per
logged point, in list order. -/
def l2CsvRows (s : L2State) : List FBVals := s.logged_data

/-! ## Tick pacing -/

/-- The inter-tick sleep of `loger3.py` lines 173–176 and `lastone.py`
lines 155–158: `to_sleep = LOG_INTERVAL - elapsed`, waited only when
positive. -/
def remainderSleep (period elapsed : ℚ) : ℚ :=
  let to_sleep := period - elapsed
  if 0 < to_sleep then to_sleep else 0

/-- The configured tick period of `complete.py` (`time.sleep(0.1)`, line 174). -/
def cdPeriod : ℚ := 1 / 10

/-- The inter-tick sleep of `complete.py`'s `logging_loop` (line 174): a
fixed `time.sleep(0.1)` that ignores the elapsed work. -/
def cdTickSleep (elapsed : ℚ) : ℚ := cdPeriod

/-! ## Concrete scenario data -/

/-- Seven consecutive successful ticks whose RPM readings are 1…7 and whose
other parameters stay absent. -/
def sevenTicks : List (Option TickResp) :=
  [some ⟨some 1, none, none, none⟩,
   some ⟨some 2, none, none, none⟩,
   some ⟨some 3, none, none, none⟩,
   some ⟨some 4, none, none, none⟩,
   some ⟨some 5, none, none, none⟩,
   some ⟨some 6, none, none, none⟩,
   some ⟨some 7, none, none, none⟩]

/-- The seven cached snapshots those ticks produce from the zero cache, as
`loger3.py` logs them (raw magnitudes). -/
def sevenRows : List L1Vals :=
  [⟨1, 0, 0, none⟩, ⟨2, 0, 0, none⟩, ⟨3, 0, 0, none⟩, ⟨4, 0, 0, none⟩,
   ⟨5, 0, 0, none⟩, ⟨6, 0, 0, none⟩, ⟨7, 0, 0, none⟩]

/-- The same seven snapshots as `lastone.py` logs them (`int()` magnitudes). -/
def sevenRowsInt : List FBVals :=
  [⟨1, 0, 0, none⟩, ⟨2, 0, 0, none⟩, ⟨3, 0, 0, none⟩, ⟨4, 0, 0, none⟩,
   ⟨5, 0, 0, none⟩, ⟨6, 0, 0, none⟩, ⟨7, 0, 0, none⟩]

/-! ## Helper lemmas -/

theorem l1Update_allAbsent (v : L1Vals) : l1Update v TickResp.allAbsent = v := rfl

theorem fbUpdate_truncVals (v : L1Vals) (r : TickResp) :
    fbUpdate (truncVals v) r = truncVals (l1Update v r) := by
  obtain ⟨a, b, c, d⟩ := r
  cases a <;> cases b <;> cases c <;> cases d <;> rfl

theorem fbRun_truncVals (v : L1Vals) (rs : List TickResp) :
    fbRun (truncVals v) rs = truncVals (l1Run v rs) := by
  induction rs generalizing v with
  | nil => rfl
  | cons r rest ih =>
    show fbRun (fbUpdate (truncVals v) r) rest = truncVals (l1Run (l1Update v r) rest)
    rw [fbUpdate_truncVals]
    exact ih (l1Update v r)

theorem fbTrace_truncVals (v : L1Vals) (rs : List TickResp) :
    fbTrace (truncVals v) rs = (l1Trace v rs).map truncVals := by
  induction rs generalizing v with
  | nil => rfl
  | cons r rest ih =>
    show fbUpdate (truncVals v) r :: fbTrace (fbUpdate (truncVals v) r) rest
        = truncVals (l1Update v r) :: (l1Trace (l1Update v r) rest).map truncVals
    rw [fbUpdate_truncVals]
    exact congrArg _ (ih (l1Update v r))

theorem l1Run_rpm_of_absent (v : L1Vals) (rs : List TickResp)
    (h : ∀ r ∈ rs, r.rpm = none) : (l1Run v rs).rpm = v.rpm := by
  induction rs generalizing v with
  | nil => rfl
  | cons r rest ih =>
    have hr : r.rpm = none := h r (by simp)
    calc (l1Run v (r :: rest)).rpm = (l1Run (l1Update v r) rest).rpm := rfl
      _ = (l1Update v r).rpm := ih (l1Update v r) fun x hx => h x (by simp [hx])
      _ = v.rpm := by simp [l1Update, hr]

theorem l1Run_speed_of_absent (v : L1Vals) (rs : List TickResp)
    (h : ∀ r ∈ rs, r.speed = none) : (l1Run v rs).speed = v.speed := by
  induction rs generalizing v with
  | nil => rfl
  | cons r rest ih =>
    have hr : r.speed = none := h r (by simp)
    calc (l1Run v (r :: rest)).speed = (l1Run (l1Update v r) rest).speed := rfl
      _ = (l1Update v r).speed := ih (l1Update v r) fun x hx => h x (by simp [hx])
      _ = v.speed := by simp [l1Update, hr]

theorem l1Run_cool_of_absent (v : L1Vals) (rs : List TickResp)
    (h : ∀ r ∈ rs, r.cool = none) : (l1Run v rs).cool = v.cool := by
  induction rs generalizing v with
  | nil => rfl
  | cons r rest ih =>
    have hr : r.cool = none := h r (by simp)
    calc (l1Run v (r :: rest)).cool = (l1Run (l1Update v r) rest).cool := rfl
      _ = (l1Update v r).cool := ih (l1Update v r) fun x hx => h x (by simp [hx])
      _ = v.cool := by simp [l1Update, hr]

theorem l1Trace_oil_of_absent (v : L1Vals) (rs : List TickResp)
    (h : ∀ r ∈ rs, r.oil = none) : ∀ w ∈ l1Trace v rs, w.oil = v.oil := by
  induction rs generalizing v with
  | nil => intro w hw; cases hw
  | cons r rest ih =>
    intro w hw
    have hr : r.oil = none := h r (by simp)
    have hupd : (l1Update v r).oil = v.oil := by simp [l1Update, hr]
    simp only [l1Trace, List.mem_cons] at hw
    rcases hw with hw | hw
    · rw [hw, hupd]
    · rw [ih (l1Update v r) (fun x hx => h x (by simp [hx])) w hw, hupd]

theorem fbTrace_oil_of_absent (v : FBVals) (rs : List TickResp)
    (h : ∀ r ∈ rs, r.oil = none) : ∀ w ∈ fbTrace v rs, w.oil = v.oil := by
  induction rs generalizing v with
  | nil => intro w hw; cases hw
  | cons r rest ih =>
    intro w hw
    have hr : r.oil = none := h r (by simp)
    have hupd : (fbUpdate v r).oil = v.oil := by simp [fbUpdate, hr]
    simp only [fbTrace, List.mem_cons] at hw
    rcases hw with hw | hw
    · rw [hw, hupd]
    · rw [ih (fbUpdate v r) (fun x hx => h x (by simp [hx])) w hw, hupd]

theorem loTick_attemptedReconnect (th : ℕ) (s : LOState) (b : Buf FBVals)
    (sink : List FBVals) (rOk : Bool) (inp : Option TickResp) (live : Bool) :
    (loTick th s b sink rOk inp live).attemptedReconnect = !s.connected := by
  simp only [loTick]
  repeat' split
  all_goals rfl

theorem loTick_is_logging (th : ℕ) (s : LOState) (b : Buf FBVals)
    (sink : List FBVals) (rOk : Bool) (inp : Option TickResp) (live : Bool) :
    (loTick th s b sink rOk inp live).state.is_logging = s.is_logging := by
  simp only [loTick]
  repeat' split
  all_goals rfl

theorem loTick_csv_path (th : ℕ) (s : LOState) (b : Buf FBVals)
    (sink : List FBVals) (rOk : Bool) (inp : Option TickResp) (live : Bool) :
    (loTick th s b sink rOk inp live).state.csv_path = s.csv_path := by
  simp only [loTick]
  repeat' split
  all_goals rfl

theorem loTick_total_records (th : ℕ) (s : LOState) (b : Buf FBVals)
    (sink : List FBVals) (rOk : Bool) (inp : Option TickResp) (live : Bool) :
    (loTick th s b sink rOk inp live).state.total_records = s.total_records ∨
    (loTick th s b sink rOk inp live).state.total_records = s.total_records + 1 := by
  simp only [loTick]
  repeat' split
  all_goals simp

theorem l3Tick_is_logging (th : ℕ) (s : L3State) (b : Buf L1Vals)
    (sink : List L1Vals) (rOk : Bool) (inp : Option TickResp) (live : Bool) :
    (l3Tick th s b sink rOk inp live).state.is_logging = s.is_logging := by
  simp only [l3Tick]
  repeat' split
  all_goals rfl

theorem l3Tick_csv_path (th : ℕ) (s : L3State) (b : Buf L1Vals)
    (sink : List L1Vals) (rOk : Bool) (inp : Option TickResp) (live : Bool) :
    (l3Tick th s b sink rOk inp live).state.csv_path = s.csv_path := by
  simp only [l3Tick]
  repeat' split
  all_goals rfl

theorem l3Tick_total_records (th : ℕ) (s : L3State) (b : Buf L1Vals)
    (sink : List L1Vals) (rOk : Bool) (inp : Option TickResp) (live : Bool) :
    (l3Tick th s b sink rOk inp live).state.total_records = s.total_records + 1 := by
  simp only [l3Tick]
  repeat' split
  all_goals rfl

/-! ## Claims -/

/-- C1: last-known-good caching.  In `loger1.py`'s main loop each parameter's
cached value is overwritten exactly when the tick's response for it is valid
(non-null) and left unchanged when it is absent; and for RPM responses
800, absent, 820, absent, 830 over 5 ticks the observed cached sequence is
800, 800, 820, 820, 830 (in `finalboss.py`'s `logging_loop` as well), never
reverting to zero. -/
theorem C1_last_known_good_cache :
    (∀ (v : L1Vals) (r : TickResp),
        (l1Update v r).rpm = (match r.rpm with | some x => x | none => v.rpm) ∧
        (l1Update v r).speed = (match r.speed with | some x => x | none => v.speed) ∧
        (l1Update v r).cool = (match r.cool with | some x => x | none => v.cool) ∧
        (l1Update v r).oil = (match r.oil with | some x => some x | none => v.oil)) ∧
    (l1Trace L1Vals.init (rpmTicks [some 800, none, some 820, none, some 830])).map L1Vals.rpm
      = [800, 800, 820, 820, 830] ∧
    (fbTrace FBVals.init (rpmTicks [some 800, none, some 820, none, some 830])).map FBVals.rpm
      = [800, 800, 820, 820, 830] := by
  refine ⟨fun v r => ⟨rfl, rfl, rfl, rfl⟩, ?_, ?_⟩ <;> decide

/-- C5: cold-start boundary.  Before any valid reading the numeric parameters
of `loger1.py` (lines 20–23) and `finalboss.py` (lines 32–35) read as zero;
a parameter that never produces a valid reading during the whole session —
here oil temperature — reads as the `"N/A"` marker (`none`) at every
observation point of the session, in both variants. -/
theorem C5_cold_start_boundary :
    (L1Vals.init.rpm = 0 ∧ L1Vals.init.speed = 0 ∧ L1Vals.init.cool = 0 ∧
      L1Vals.init.oil = none) ∧
    (FBVals.init.rpm = 0 ∧ FBVals.init.speed = 0 ∧ FBVals.init.cool = 0 ∧
      FBVals.init.oil = none) ∧
    (∀ rs : List TickResp, (∀ r ∈ rs, r.rpm = none) → (l1Run L1Vals.init rs).rpm = 0) ∧
    (∀ rs : List TickResp, (∀ r ∈ rs, r.speed = none) → (l1Run L1Vals.init rs).speed = 0) ∧
    (∀ rs : List TickResp, (∀ r ∈ rs, r.cool = none) → (l1Run L1Vals.init rs).cool = 0) ∧
    (∀ rs : List TickResp, (∀ r ∈ rs, r.oil = none) →
      ∀ w ∈ l1Trace L1Vals.init rs, w.oil = none) ∧
    (∀ rs : List TickResp, (∀ r ∈ rs, r.oil = none) →
      ∀ w ∈ fbTrace FBVals.init rs, w.oil = none) :=
  ⟨⟨rfl, rfl, rfl, rfl⟩, ⟨rfl, rfl, rfl, rfl⟩,
    fun rs h => l1Run_rpm_of_absent L1Vals.init rs h,
    fun rs h => l1Run_speed_of_absent L1Vals.init rs h,
    fun rs h => l1Run_cool_of_absent L1Vals.init rs h,
    fun rs h => l1Trace_oil_of_absent L1Vals.init rs h,
    fun rs h => fbTrace_oil_of_absent FBVals.init rs h⟩

/-- C5 witness: the cold-start statements instantiated on a concrete
two-tick session in which every response is absent. -/
theorem C5_cold_start_boundary_witness :
    (l1Run L1Vals.init [TickResp.allAbsent, TickResp.allAbsent]).rpm = 0 ∧
    ∀ w ∈ fbTrace FBVals.init [TickResp.allAbsent, TickResp.allAbsent], w.oil = none :=
  ⟨C5_cold_start_boundary.2.2.1 [TickResp.allAbsent, TickResp.allAbsent] (by decide),
   C5_cold_start_boundary.2.2.2.2.2.2 [TickResp.allAbsent, TickResp.allAbsent] (by decide)⟩

/-- C9 (amended): the GUI variant's filtering (`finalboss.py`, `int()`
conversion) and the console variant's (`loger1.py`, raw magnitudes) are
equivalent up to Python `int()` truncation: started from caches related by
pointwise truncation, the GUI cache equals the truncation of the console
cache after every tick of any common response sequence.  They produce
identical values only when the valid magnitudes are integral. -/
theorem C9_gui_console_truncation_refinement :
    ∀ (v : L1Vals) (rs : List TickResp),
      fbRun (truncVals v) rs = truncVals (l1Run v rs) ∧
      fbTrace (truncVals v) rs = (l1Trace v rs).map truncVals :=
  fun v rs => ⟨fbRun_truncVals v rs, fbTrace_truncVals v rs⟩

/-- C9 counterexample: on the single response RPM = 1601/2 (a non-integral
Pint magnitude), `finalboss.py` caches `int(800.5) = 800` while `loger1.py`
caches 800.5 — the two variants do not compute identical last-good values. -/
theorem C9_counterexample :
    (fbRun FBVals.init
        [{ rpm := some (mkRat 1601 2), speed := none, cool := none, oil := none }]).rpm = 800 ∧
    (l1Run L1Vals.init
        [{ rpm := some (mkRat 1601 2), speed := none, cool := none, oil := none }]).rpm = mkRat 1601 2 ∧
    mkRat 1601 2 ≠ (800 : ℚ) := by
  refine ⟨by decide, by decide, by decide⟩

/-- C3 (amended): starting a log with the transport disconnected is a silent
no-op in `complete.py` — the state is unchanged (no sink created, `running`
stays false) but no error or reason is produced; `loger3.py`'s
`api_start_logging` does not consult connectivity at all: it is rejected
(with a reason) exactly when a session is already active, and otherwise
starts a session regardless of the transport state. -/
theorem C3_start_logging_disconnected :
    (∀ s : CDState, s.connected = false → cdStartLogging s = (s, none)) ∧
    (∀ (s : L3State) (f : ℕ), s.is_logging = true →
        l3StartLogging s f = (s, .err "Already logging")) ∧
    (∀ (s : L3State) (f : ℕ), s.is_logging = false →
        l3StartLogging s f
          = ({ s with csv_path := some f, total_records := 0, is_logging := true }, .ok)) := by
  refine ⟨fun s h => ?_, fun s f h => ?_, fun s f h => ?_⟩
  · simp [cdStartLogging, h]
  · simp [l3StartLogging, h]
  · simp [l3StartLogging, h]

/-- C3 witness: the amended statement at concrete disconnected states. -/
theorem C3_start_logging_disconnected_witness :
    cdStartLogging ⟨false, false, false, 0⟩ = (⟨false, false, false, 0⟩, none) ∧
    l3StartLogging ⟨false, false, 0, L1Vals.init, none⟩ 1
      = (⟨false, true, 0, L1Vals.init, some 1⟩, .ok) :=
  ⟨C3_start_logging_disconnected.1 ⟨false, false, false, 0⟩ rfl,
   C3_start_logging_disconnected.2.2 ⟨false, false, 0, L1Vals.init, none⟩ 1 rfl⟩

/-- C3 counterexample: in the disconnected, idle state, `loger3.py`'s
`api_start_logging` reports success and starts a session (so the command is
not rejected), and `complete.py`'s `start_logging` yields no error value —
contradicting "rejected with an explicit InvalidState/error result carrying
a reason". -/
theorem C3_counterexample :
    (l3StartLogging ⟨false, false, 0, L1Vals.init, none⟩ 1).2 = .ok ∧
    (l3StartLogging ⟨false, false, 0, L1Vals.init, none⟩ 1).1.is_logging = true ∧
    (cdStartLogging ⟨false, false, false, 0⟩).2 = none := by
  refine ⟨by decide, by decide, by decide⟩

/-- C6 (amended): `complete.py`'s `stop_logging` (and `close_app`) is
idempotent — a second invocation produces no error, closes the sink no
second time and leaves the state exactly as after the first; `loger3.py`'s
`api_stop_logging` likewise never double-closes and leaves the state of the
first call unchanged, but it rejects the second invocation with an error
response ("Not currently logging", HTTP 400) instead of succeeding quietly. -/
theorem C6_teardown_idempotent :
    (∀ s : CDState,
        cdStopLogging (cdStopLogging s) = cdStopLogging s ∧
        (cdStopLogging (cdStopLogging s)).sinkCloses = (cdStopLogging s).sinkCloses ∧
        cdCloseApp (cdCloseApp s) = cdCloseApp s) ∧
    (∀ s : L3State, s.is_logging = false →
        l3StopLogging s = (s, .err "Not currently logging")) ∧
    (∀ s : L3State, (l3StopLogging (l3StopLogging s).1).1 = (l3StopLogging s).1) := by
  refine ⟨fun s => ⟨?_, ?_, ?_⟩, fun s h => ?_, fun s => ?_⟩
  · simp [cdStopLogging]
  · simp [cdStopLogging]
  · simp [cdCloseApp, cdStopLogging]
  · simp [l3StopLogging, h]
  · cases h : s.is_logging <;> simp [l3StopLogging, h]

/-- C6 witness: the amended statement at a concrete already-stopped state. -/
theorem C6_teardown_idempotent_witness :
    l3StopLogging ⟨true, false, 5, L1Vals.init, some 1⟩
      = (⟨true, false, 5, L1Vals.init, some 1⟩, .err "Not currently logging") :=
  C6_teardown_idempotent.2.1 ⟨true, false, 5, L1Vals.init, some 1⟩ rfl

/-- C6 counterexample: invoking `loger3.py`'s stop a second time immediately
after a first (from a live logging session) yields an error response,
contradicting "a second invocation produces no error". -/
theorem C6_counterexample :
    (l3StopLogging (l3StopLogging ⟨true, true, 5, L1Vals.init, some 1⟩).1).2
      = .err "Not currently logging" := by
  decide

/-- C7 (amended): `loger3.py` and `lastone.py` sleep exactly
max(0, period − elapsed) at the end of every tick, so the interval between
consecutive tick starts is never shorter than the period, and an overrunning
tick leads to a zero sleep (the next tick runs immediately, no busy-spin);
`complete.py`'s `logging_loop`, however, sleeps the fixed period 0.1 s
regardless of the elapsed work. -/
theorem C7_tick_pacing :
    (∀ p e : ℚ, remainderSleep p e = max 0 (p - e)) ∧
    (∀ p e : ℚ, p ≤ e + remainderSleep p e) ∧
    (∀ p e : ℚ, p ≤ e → remainderSleep p e = 0) ∧
    (∀ e : ℚ, cdTickSleep e = cdPeriod) := by
  refine ⟨fun p e => ?_, fun p e => ?_, fun p e h => ?_, fun e => rfl⟩
  · show (if 0 < p - e then p - e else 0) = max 0 (p - e)
    rcases lt_or_le 0 (p - e) with h | h
    · rw [if_pos h, max_eq_right h.le]
    · rw [if_neg (not_lt.mpr h), max_eq_left h]
  · show p ≤ e + (if 0 < p - e then p - e else 0)
    rcases lt_or_le 0 (p - e) with h | h
    · rw [if_pos h]; linarith
    · rw [if_neg (not_lt.mpr h)]; linarith
  · show (if 0 < p - e then p - e else 0) = 0
    rw [if_neg (by linarith)]

/-- C7 witness: an overrunning tick (elapsed 2 against period 1) sleeps 0. -/
theorem C7_tick_pacing_witness :
    remainderSleep 1 2 = 0 ∧ (1 : ℚ) ≤ 2 :=
  ⟨C7_tick_pacing.2.2.1 1 2 (by decide), by decide⟩

/-- C7 counterexample: `complete.py`'s loop does not sleep
max(0, period − elapsed): after 0.05 s of work in a 0.1 s period it still
sleeps the full 0.1 s. -/
theorem C7_counterexample :
    cdTickSleep (1 / 20) ≠ max 0 (cdPeriod - 1 / 20) := by
  have h1 : cdPeriod - 1 / 20 = 1 / 20 := by rw [cdPeriod]; norm_num
  have h2 : max (0 : ℚ) (1 / 20) = 1 / 20 := max_eq_right (by norm_num)
  rw [cdTickSleep, h1, h2, cdPeriod]
  norm_num

/-- C10: in the web-backend variant `loger2-Ari.py`, `start_logging` mutates
only `is_logging` and `log_start_time` and leaves `logged_data` unchanged
(when connected; when disconnected it changes nothing and errors), so after
stop_logging followed by start_logging, the record count and the CSV
download still cover all earlier records; `stop_logging` also leaves
`logged_data` intact, and only `clear_data` empties it. -/
theorem C10_sessions_preserve_log :
    (∀ (s : L2State) (t : ℕ), s.connected = true →
        l2StartLogging s t = ({ s with is_logging := true, log_start_time := some t }, .ok)) ∧
    (∀ (s : L2State) (t : ℕ), s.connected = false →
        l2StartLogging s t = (s, .err "OBD not connected")) ∧
    (∀ (s : L2State) (t : ℕ), s.connected = true →
        (l2StartLogging (l2StopLogging s).1 t).1.logged_data = s.logged_data ∧
        (l2StartLogging (l2StopLogging s).1 t).2 = .ok ∧
        l2CsvRows (l2StartLogging (l2StopLogging s).1 t).1 = l2CsvRows s ∧
        (l2StopLogging (l2StartLogging (l2StopLogging s).1 t).1).2 = s.logged_data.length) ∧
    (∀ s : L2State, (l2StopLogging s).1.logged_data = s.logged_data) ∧
    (∀ s : L2State, (l2ClearData s).logged_data = []) := by
  refine ⟨fun s t h => ?_, fun s t h => ?_, fun s t h => ?_, fun s => rfl, fun s => rfl⟩
  · simp [l2StartLogging, h]
  · simp [l2StartLogging, h]
  · refine ⟨?_, ?_, ?_, ?_⟩ <;> simp [l2StartLogging, l2StopLogging, l2CsvRows, h]

/-- C10 witness: a stop/start cycle at a concrete connected state carrying
two earlier records keeps both of them (count and CSV rows), and only
`clear_data` empties the list. -/
theorem C10_sessions_preserve_log_witness :
    (l2StartLogging (l2StopLogging
        ⟨true, true, some 0, [FBVals.init, FBVals.init], FBVals.init⟩).1 1).1.logged_data
      = [FBVals.init, FBVals.init] ∧
    (l2ClearData ⟨true, true, some 0, [FBVals.init, FBVals.init], FBVals.init⟩).logged_data
      = [] :=
  ⟨(C10_sessions_preserve_log.2.2.1
      ⟨true, true, some 0, [FBVals.init, FBVals.init], FBVals.init⟩ 1 rfl).1,
   C10_sessions_preserve_log.2.2.2.2
      ⟨true, true, some 0, [FBVals.init, FBVals.init], FBVals.init⟩⟩

/-- C2 (amended): on a mid-query transport error during tick N,
`lastone.py`'s polling thread aborts the remaining queries and behaves as the
claim says — no LogRecord is produced for the tick (buffer and sink are
untouched, the record count is not incremented), the published `connected`
flag flips to false, and tick N+1 attempts a reconnect; `loger3.py`'s logger
thread aborts the remaining queries and flips to the reconnect path too, but
it still appends a LogRecord of last-good values for tick N and increments
the record count (its `connected` flag ends as whatever liveness the line-143
re-read reports). -/
theorem C2_comm_error_tick :
    (∀ (th : ℕ) (s : LOState) (b : Buf FBVals) (sink : List FBVals) (rOk live : Bool),
        s.connected = true →
        (loTick th s b sink rOk none live).state.connected = false ∧
        (loTick th s b sink rOk none live).state.vals = s.vals ∧
        (loTick th s b sink rOk none live).state.total_records = s.total_records ∧
        (loTick th s b sink rOk none live).buf = b ∧
        (loTick th s b sink rOk none live).sink = sink ∧
        ∀ (b2 : Buf FBVals) (sink2 : List FBVals) (rOk2 live2 : Bool) (inp2 : Option TickResp),
          (loTick th (loTick th s b sink rOk none live).state
              b2 sink2 rOk2 inp2 live2).attemptedReconnect = true) ∧
    (∀ (th : ℕ) (s : L3State) (b : Buf L1Vals) (sink : List L1Vals) (rOk live : Bool),
        s.connected = true →
        (l3Tick th s b sink rOk none live).state.total_records = s.total_records + 1 ∧
        (l3Tick th s b sink rOk none live).state.vals = s.vals ∧
        (l3Tick th s b sink rOk none live).state.connected = live ∧
        (l3Tick th s b sink rOk none live).sink.length
            + (l3Tick th s b sink rOk none live).buf.buffer.length
          = sink.length + b.buffer.length + 1) := by
  constructor
  · intro th s b sink rOk live h
    have hc : (loTick th s b sink rOk none live).state.connected = false := by
      simp [loTick, h]
    refine ⟨hc, ?_, ?_, ?_, ?_, ?_⟩
    · simp [loTick, h]
    · simp [loTick, h]
    · simp [loTick, h]
    · simp [loTick, h]
    · intro b2 sink2 rOk2 live2 inp2
      rw [loTick_attemptedReconnect, hc]
      rfl
  · intro th s b sink rOk live h
    refine ⟨l3Tick_total_records th s b sink rOk none live, ?_, ?_, ?_⟩ <;>
    · by_cases hf : th ≤ b.rows_since_flush + 1
      · cases hp : s.csv_path with
        | some x =>
          simp [l3Tick, h, hf, hp, l1Update_allAbsent, Buf.empty]
          all_goals omega
        | none =>
          simp [l3Tick, h, hf, hp, l1Update_allAbsent, Buf.empty]
          all_goals omega
      · simp [l3Tick, h, hf, l1Update_allAbsent, Buf.empty]
        all_goals omega

/-- C2 witness: the amended statement at concrete connected, logging states. -/
theorem C2_comm_error_tick_witness :
    (loTick 10 ⟨true, true, 0, FBVals.init, some 1⟩ Buf.empty [] true none true).state.connected
      = false ∧
    (l3Tick 10 ⟨true, true, 0, L1Vals.init, some 1⟩ Buf.empty [] true none true).state.total_records
      = 0 + 1 :=
  ⟨(C2_comm_error_tick.1 10 ⟨true, true, 0, FBVals.init, some 1⟩ Buf.empty [] true true rfl).1,
   (C2_comm_error_tick.2 10 ⟨true, true, 0, L1Vals.init, some 1⟩ Buf.empty [] true true rfl).1⟩

/-- C2 counterexample: in `loger3.py`, a mid-query transport failure during a
logging tick still produces a LogRecord — the buffer gains the last-good row
and the record count is incremented — contradicting "no LogRecord is
produced for tick N and the record count is not incremented". -/
theorem C2_counterexample :
    (l3Tick 10 ⟨true, true, 0, L1Vals.init, some 1⟩ Buf.empty [] true none false).state.total_records
      = 1 ∧
    (l3Tick 10 ⟨true, true, 0, L1Vals.init, some 1⟩ Buf.empty [] true none false).buf.buffer
      = [L1Vals.init] ∧
    (l3Tick 10 ⟨true, true, 0, L1Vals.init, some 1⟩ Buf.empty [] true none false).state.connected
      = false := by
  refine ⟨by decide, by decide, by decide⟩

/-- C8 (amended): the poller tick of `lastone.py` and `loger3.py` never
mutates `is_logging` or the CSV destination — those change only through the
explicit commands — but `record_count` is not owned by the commands alone:
the poller increments `total_records` on every logged tick (`lastone.py`
line 139) and on every tick whatsoever (`loger3.py` line 159). -/
theorem C8_session_state_ownership :
    (∀ (th : ℕ) (s : LOState) (b : Buf FBVals) (sink : List FBVals)
        (rOk live : Bool) (inp : Option TickResp),
        (loTick th s b sink rOk inp live).state.is_logging = s.is_logging ∧
        (loTick th s b sink rOk inp live).state.csv_path = s.csv_path ∧
        ((loTick th s b sink rOk inp live).state.total_records = s.total_records ∨
          (loTick th s b sink rOk inp live).state.total_records = s.total_records + 1)) ∧
    (∀ (th : ℕ) (s : L3State) (b : Buf L1Vals) (sink : List L1Vals)
        (rOk live : Bool) (inp : Option TickResp),
        (l3Tick th s b sink rOk inp live).state.is_logging = s.is_logging ∧
        (l3Tick th s b sink rOk inp live).state.csv_path = s.csv_path ∧
        (l3Tick th s b sink rOk inp live).state.total_records = s.total_records + 1) := by
  constructor
  · intro th s b sink rOk live inp
    exact ⟨loTick_is_logging th s b sink rOk inp live,
      loTick_csv_path th s b sink rOk inp live,
      loTick_total_records th s b sink rOk inp live⟩
  · intro th s b sink rOk live inp
    exact ⟨l3Tick_is_logging th s b sink rOk inp live,
      l3Tick_csv_path th s b sink rOk inp live,
      l3Tick_total_records th s b sink rOk inp live⟩

/-- C8 counterexample: a single successful logging tick of `lastone.py`'s
polling thread — no control-surface command involved — changes
`total_records` from 0 to 1, contradicting "never mutated by the Poller's
tick cycle". -/
theorem C8_counterexample :
    (loTick 10 ⟨true, true, 0, FBVals.init, some 1⟩ Buf.empty [] true
        (some ⟨some 800, none, none, none⟩) true).state.total_records ≠ 0 := by
  decide

/-- C4: with flush threshold 3 and 7 records logged while connected,
`loger3.py` count-flushes after ticks 3 and 6 (sink sizes 3 and 6, still 6
after tick 7), and the final flush triggered by the stop event covers the
remaining row, leaving exactly the 7 rows in tick order; in `lastone.py`
the final-flush block after `while True` is unreachable, so after the same
7 ticks, a stop, and two further ticks, the sink still holds only the first
6 rows and the 7th stays in the thread's buffer. -/
theorem C4_round_trip_flush :
    (l3Ticks 3 ⟨true, true, 0, L1Vals.init, some 1⟩ Buf.empty [] (sevenTicks.take 3)).2.2
      = sevenRows.take 3 ∧
    (l3Ticks 3 ⟨true, true, 0, L1Vals.init, some 1⟩ Buf.empty [] (sevenTicks.take 6)).2.2
      = sevenRows.take 6 ∧
    (l3Ticks 3 ⟨true, true, 0, L1Vals.init, some 1⟩ Buf.empty [] sevenTicks).2.2
      = sevenRows.take 6 ∧
    l3LoggerRun 3 ⟨true, true, 0, L1Vals.init, some 1⟩ Buf.empty [] sevenTicks = sevenRows ∧
    (loTicks 3 ⟨true, true, 0, FBVals.init, some 1⟩ Buf.empty [] sevenTicks).2.2
      = sevenRowsInt.take 6 ∧
    (loTicks 3
        (loStopLogging (loTicks 3 ⟨true, true, 0, FBVals.init, some 1⟩ Buf.empty [] sevenTicks).1)
        (loTicks 3 ⟨true, true, 0, FBVals.init, some 1⟩ Buf.empty [] sevenTicks).2.1
        (loTicks 3 ⟨true, true, 0, FBVals.init, some 1⟩ Buf.empty [] sevenTicks).2.2
        [some TickResp.allAbsent, some TickResp.allAbsent]).2.2
      = sevenRowsInt.take 6 ∧
    (loTicks 3
        (loStopLogging (loTicks 3 ⟨true, true, 0, FBVals.init, some 1⟩ Buf.empty [] sevenTicks).1)
        (loTicks 3 ⟨true, true, 0, FBVals.init, some 1⟩ Buf.empty [] sevenTicks).2.1
        (loTicks 3 ⟨true, true, 0, FBVals.init, some 1⟩ Buf.empty [] sevenTicks).2.2
        [some TickResp.allAbsent, some TickResp.allAbsent]).2.1.buffer
      = [⟨7, 0, 0, none⟩] := by
  refine ⟨by decide, by decide, by decide, by decide, by decide, by decide, by decide⟩

end JA1
